import Mathlib

/-!
Shallow embedding of the trivia game session controller in
`src/src/pages/Home.tsx` (the first of the three identical-logic theme
variants). The component state is the tuple of React `useState` hooks;
the four operations `startGame`, `submitAnswer`, `nextQuestion`,
`playAgain` are embedded as pure functions from the pre-state and the
agent call result to the post-state together with the list of requests
dispatched. A small-step event machine on top models button clicks and
request completion, with the `disabled` conditions of the rendered
buttons as guards.
-/

namespace Trivia

/-- Embeds `type Category` from Home.tsx. -/
inductive Category where
  | Science | History | Geography | Entertainment | Sports
deriving DecidableEq, Repr

/-- Embeds `type Difficulty` from Home.tsx. -/
inductive Difficulty where
  | Easy | Medium | Hard
deriving DecidableEq, Repr

/-- Embeds `type GameState = 'setup' | 'question' | 'feedback' | 'game_over'`. -/
inductive GameState where
  | setup | question | feedback | game_over
deriving DecidableEq, Repr

def Category.text : Category → String
  | .Science => "Science"
  | .History => "History"
  | .Geography => "Geography"
  | .Entertainment => "Entertainment"
  | .Sports => "Sports"

def Difficulty.text : Difficulty → String
  | .Easy => "Easy"
  | .Medium => "Medium"
  | .Hard => "Hard"

/-- Embeds `interface Question` from Home.tsx. -/
structure Question where
  text : String
  options : List String
  correct_answer : String
deriving DecidableEq, Repr

/-- Embeds `interface Feedback` from Home.tsx. -/
structure Feedback where
  is_correct : Bool
  message : String
  explanation : String
deriving DecidableEq, Repr

/-- Embeds `interface Score` from Home.tsx; JS numbers embedded as integers. -/
structure Score where
  correct : Int
  total : Int
  percentage : Int
deriving DecidableEq, Repr

/-- Embeds `interface TriviaResult` from Home.tsx. -/
structure TriviaResult where
  game_state : String
  question : Option Question
  feedback : Option Feedback
  score : Score
  commentary : String
deriving DecidableEq, Repr

/-- The `response` object of a call result: the normalized agent response
with its `status` and the `TriviaResult` payload (`TriviaResponse`). -/
structure AgentResponse where
  status : String
  result : TriviaResult
deriving DecidableEq, Repr

/-- The value returned by `callAIAgent`: `{ success, error?, response }`
(spec section 6, outbound call contract). -/
structure AgentCallResult where
  success : Bool
  error : Option String
  response : AgentResponse
deriving DecidableEq, Repr

/-- A request dispatched through `callAIAgent`: the instruction text, the
agent identifier and the `session_id` passed along. -/
structure Request where
  message : String
  agentId : String
  sessionId : String
deriving DecidableEq, Repr

/-- Embeds `const AGENT_ID = "6979bd37a5d355f8aa489bab"`. -/
def AGENT_ID : String := "6979bd37a5d355f8aa489bab"

/-- The `useState` hooks of `Home`, gathered into one record. -/
structure HomeState where
  gameState : GameState
  category : Category
  difficulty : Difficulty
  response : Option AgentResponse
  selectedAnswer : Option String
  loading : Bool
  error : Option String
  sessionId : String
deriving DecidableEq, Repr

/-- The initial hook values of `Home`. -/
def initState : HomeState :=
  { gameState := .setup
    category := .Science
    difficulty := .Medium
    response := none
    selectedAnswer := none
    loading := false
    error := none
    sessionId := "" }

/-- JS truthiness of an optional string: `undefined`/`null` and the empty
string are falsy.  `e || fb` on strings. -/
def strOr (e : Option String) (fb : String) : String :=
  match e with
  | none => fb
  | some s => if s = "" then fb else s

/-- Embeds the check `result.success && result.response.status === 'success'`. -/
def callOk (r : AgentCallResult) : Bool :=
  r.success && (r.response.status == "success")

/-- Instruction text sent by `startGame`. -/
def startMessage (c : Category) (d : Difficulty) : String :=
  "Start a new trivia game. Category: " ++ c.text ++ ", Difficulty: " ++
    d.text ++ ". Give me the first question."

/-- Instruction text sent by `submitAnswer`. -/
def answerMessage (a : String) : String :=
  "My answer is: " ++ a

/-- Instruction text sent by `nextQuestion`. -/
def nextMessage : String := "Give me the next question"

/-- The code run by `startGame` after `await callAIAgent` returns `r`:
`setLoading(false)` and the success/failure branch. -/
def startGameFinish (s : HomeState) (r : AgentCallResult) : HomeState :=
  let s := { s with loading := false }
  if callOk r then
    let s := { s with response := some r.response }
    let s :=
      if r.response.result.game_state = "question" then
        { s with gameState := .question }
      else if r.response.result.game_state = "feedback" then
        { s with gameState := .feedback }
      else s
    { s with selectedAnswer := none }
  else
    { s with error := some (strOr r.error "Failed to start game") }

/-- Embeds `startGame`: the full handler, from the pre-state, the fresh session
identifier (the code derives it from `Date.now()`; here a parameter) and
the awaited call result, to the post-state and the dispatched requests. -/
def startGame (s : HomeState) (sid : String) (r : AgentCallResult) :
    HomeState × List Request :=
  let s1 := { s with loading := true, error := none, sessionId := sid }
  (startGameFinish s1 r,
    [{ message := startMessage s.category s.difficulty
       agentId := AGENT_ID
       sessionId := sid }])

/-- The code run by `submitAnswer` after `await` returns `r`. -/
def submitAnswerFinish (s : HomeState) (r : AgentCallResult) : HomeState :=
  let s := { s with loading := false }
  if callOk r then
    { s with response := some r.response, gameState := .feedback }
  else
    { s with error := some (strOr r.error "Failed to submit answer") }

/-- Embeds the guard `if (!selectedAnswer) return`: JS falsiness of the selected answer. -/
def noSelection (s : HomeState) : Bool :=
  match s.selectedAnswer with
  | none => true
  | some a => a == ""

/-- Embeds `submitAnswer`: guard, then dispatch under the stored session. -/
def submitAnswer (s : HomeState) (r : AgentCallResult) :
    HomeState × List Request :=
  if noSelection s then (s, [])
  else
    let s1 := { s with loading := true, error := none }
    (submitAnswerFinish s1 r,
      [{ message := answerMessage (s.selectedAnswer.getD "")
         agentId := AGENT_ID
         sessionId := s.sessionId }])

/-- The code run by `nextQuestion` after `await` returns `r`. -/
def nextQuestionFinish (s : HomeState) (r : AgentCallResult) : HomeState :=
  let s := { s with loading := false }
  if callOk r then
    let s := { s with response := some r.response }
    if r.response.result.game_state = "question" then
      { s with gameState := .question }
    else if r.response.result.game_state = "game_over" then
      { s with gameState := .game_over }
    else s
  else
    { s with error := some (strOr r.error "Failed to get next question") }

/-- Embeds `nextQuestion`: clears the selection up front, then dispatches the
fixed instruction under the stored session. -/
def nextQuestion (s : HomeState) (r : AgentCallResult) :
    HomeState × List Request :=
  let s1 := { s with loading := true, error := none, selectedAnswer := none }
  (nextQuestionFinish s1 r,
    [{ message := nextMessage
       agentId := AGENT_ID
       sessionId := s.sessionId }])

/-- Embeds `playAgain`: resets view state, response, selection and session id;
touches nothing else and dispatches no request (hence the empty request
list, in the same shape as the three network-issuing handlers). -/
def playAgain (s : HomeState) : HomeState × List Request :=
  ({ s with gameState := .setup
            response := none
            selectedAnswer := none
            sessionId := "" }, [])

/-- Embeds JS `s.startsWith(p)`: the character sequence of `s` begins
with that of `p`. -/
def jsStartsWith (s p : String) : Bool :=
  p.toList.isPrefixOf s.toList

/-- The correct-answer text displayed on the feedback screen:
`question.options.find(opt => opt.startsWith(question.correct_answer))`. -/
def displayedCorrectAnswer (q : Question) : Option String :=
  q.options.find? (fun opt => jsStartsWith opt q.correct_answer)

/-- The percentage the spec prescribes for a score:
`round(100 * correct / total)`. -/
def specPercentage (sc : Score) : Int :=
  round ((100 * sc.correct : ℚ) / sc.total)

/-! ### Small-step event machine

Button clicks and request completion as events.  Each click event is
guarded by the screen that renders the button (`gameState`, and
`response?.result` being non-null for the three in-game screens) and the
button's `disabled` condition; the awaited `callAIAgent` result arrives
as a separate `complete` event, so that the in-flight window is
observable. -/

/-- Which handler's request is currently awaited, if any. -/
inductive Pending where
  | idle | start | submit | next
deriving DecidableEq, Repr

/-- Machine state: the hook values plus the in-flight marker. -/
structure MState where
  ui : HomeState
  pending : Pending
deriving DecidableEq, Repr

/-- Embeds the UI events: category/difficulty/answer selection, the four
buttons, and completion of the awaited agent call. -/
inductive Event where
  | pickCategory (c : Category)
  | pickDifficulty (d : Difficulty)
  | clickStart (sid : String)
  | pickAnswer (o : String)
  | clickSubmit
  | clickNext
  | clickPlayAgain
  | complete (r : AgentCallResult)
deriving DecidableEq, Repr

/-- Options of the question on the rendered question screen
(`question?.options`, empty when the response carries no question). -/
def currentOptions (s : HomeState) : List String :=
  match s.response with
  | some resp =>
    match resp.result.question with
    | some q => q.options
    | none => []
  | none => []

/-- One step of the event machine: `none` when the event is impossible
(the screen is not rendered, the button is `disabled`, or no request is
awaited).  Click events perform the pre-`await` part of the handler and
record the in-flight request kind; `complete` performs the
post-`await` part. -/
def step (ms : MState) (e : Event) : Option MState :=
  match e with
  | .pickCategory c =>
    if ms.ui.gameState = .setup then
      some { ms with ui := { ms.ui with category := c } }
    else none
  | .pickDifficulty d =>
    if ms.ui.gameState = .setup then
      some { ms with ui := { ms.ui with difficulty := d } }
    else none
  | .clickStart sid =>
    if ms.ui.gameState = .setup ∧ ms.ui.loading = false then
      some { ui := { ms.ui with loading := true, error := none, sessionId := sid }
             pending := .start }
    else none
  | .pickAnswer o =>
    if ms.ui.gameState = .question ∧ ms.ui.response ≠ none ∧
        ms.ui.loading = false ∧ o ∈ currentOptions ms.ui then
      some { ms with ui := { ms.ui with selectedAnswer := some o } }
    else none
  | .clickSubmit =>
    if ms.ui.gameState = .question ∧ ms.ui.response ≠ none ∧
        ms.ui.loading = false ∧ noSelection ms.ui = false then
      some { ui := { ms.ui with loading := true, error := none }
             pending := .submit }
    else none
  | .clickNext =>
    if ms.ui.gameState = .feedback ∧ ms.ui.response ≠ none ∧
        ms.ui.loading = false then
      some { ui := { ms.ui with loading := true, error := none,
                                selectedAnswer := none }
             pending := .next }
    else none
  | .clickPlayAgain =>
    if ms.ui.gameState = .game_over ∧ ms.ui.response ≠ none then
      some { ms with ui := (playAgain ms.ui).1 }
    else none
  | .complete r =>
    match ms.pending with
    | .idle => none
    | .start => some { ui := startGameFinish ms.ui r, pending := .idle }
    | .submit => some { ui := submitAnswerFinish ms.ui r, pending := .idle }
    | .next => some { ui := nextQuestionFinish ms.ui r, pending := .idle }

/-- Events that dispatch a network request. -/
def Event.dispatches : Event → Bool
  | .clickStart _ => true
  | .clickSubmit => true
  | .clickNext => true
  | _ => false

/-- The machine's initial state: the initial hooks, nothing in flight. -/
def initMState : MState := { ui := initState, pending := .idle }

/-- States reachable from the initial state by event steps. -/
inductive Reachable : MState → Prop where
  | init : Reachable initMState
  | tail {ms e ms'} : Reachable ms → step ms e = some ms' → Reachable ms'

/-! ### Concrete fixtures for counterexamples and witnesses -/

/-- A sample question used in concrete evaluations. -/
def sampleQuestion : Question :=
  { text := "Which planet?", options := ["A) Mars", "B) Venus"], correct_answer := "B" }

/-- A successful agent call result declaring game state `gs` and carrying
question `q`, feedback `fb` and score `sc`. -/
def okResult (gs : String) (q : Option Question) (fb : Option Feedback)
    (sc : Score) : AgentCallResult :=
  { success := true, error := none
    response :=
      { status := "success"
        result :=
          { game_state := gs, question := q, feedback := fb, score := sc
            commentary := "" } } }

/-- A failed agent call result with a transport error message. -/
def failedCall : AgentCallResult :=
  { success := false, error := some "network down"
    response :=
      { status := "error"
        result :=
          { game_state := "", question := none, feedback := none
            score := { correct := 0, total := 0, percentage := 0 }
            commentary := "" } } }

/-- A successful first-question response. -/
def questionResult : AgentCallResult :=
  okResult "question" (some sampleQuestion) none
    { correct := 0, total := 0, percentage := 0 }

/-- A successful feedback response to an answer submission. -/
def feedbackResult : AgentCallResult :=
  okResult "feedback" (some sampleQuestion)
    (some { is_correct := false, message := "Not quite", explanation := "It is Venus" })
    { correct := 0, total := 1, percentage := 0 }

/-- A machine state on the feedback screen with an answer still selected,
reached by start, answer selection and submission. -/
def c2Mid : Option MState :=
  (step initMState (.clickStart "sid")).bind fun m1 =>
  (step m1 (.complete questionResult)).bind fun m2 =>
  (step m2 (.pickAnswer "A) Mars")).bind fun m3 =>
  (step m3 .clickSubmit).bind fun m4 =>
  step m4 (.complete feedbackResult)

/-- Continuation of `c2Mid` by a failed next-question attempt. -/
def c2End : Option MState :=
  c2Mid.bind fun m5 =>
  (step m5 .clickNext).bind fun m6 =>
  step m6 (.complete failedCall)


/-- A state on the feedback screen with an answer still selected, as
after a successful submission. -/
def feedbackState : HomeState :=
  { initState with gameState := .feedback
                   response := some feedbackResult.response
                   selectedAnswer := some "A) Mars"
                   sessionId := "sid" }

/-- A game-over state with a non-default category selection. -/
def gameOverState : HomeState :=
  { initState with gameState := .game_over
                   category := .History
                   response := some (okResult "game_over" none none
                     { correct := 1, total := 1, percentage := 100 }).response
                   sessionId := "sid" }


/-! ### Helper lemmas -/

theorem startGameFinish_eq (s : HomeState) (r : AgentCallResult) :
    startGameFinish s r =
      if callOk r then
        { s with loading := false
                 response := some r.response
                 selectedAnswer := none
                 gameState :=
                   if r.response.result.game_state = "question" then .question
                   else if r.response.result.game_state = "feedback" then .feedback
                   else s.gameState }
      else
        { s with loading := false
                 error := some (strOr r.error "Failed to start game") } := by
  unfold startGameFinish
  split_ifs <;> rfl

theorem submitAnswerFinish_eq (s : HomeState) (r : AgentCallResult) :
    submitAnswerFinish s r =
      if callOk r then
        { s with loading := false
                 response := some r.response
                 gameState := .feedback }
      else
        { s with loading := false
                 error := some (strOr r.error "Failed to submit answer") } := by
  unfold submitAnswerFinish
  split_ifs <;> rfl

theorem nextQuestionFinish_eq (s : HomeState) (r : AgentCallResult) :
    nextQuestionFinish s r =
      if callOk r then
        { s with loading := false
                 response := some r.response
                 gameState :=
                   if r.response.result.game_state = "question" then .question
                   else if r.response.result.game_state = "game_over" then .game_over
                   else s.gameState }
      else
        { s with loading := false
                 error := some (strOr r.error "Failed to get next question") } := by
  unfold nextQuestionFinish
  split_ifs <;> rfl


theorem startGameFinish_loading (s : HomeState) (r : AgentCallResult) :
    (startGameFinish s r).loading = false := by
  rw [startGameFinish_eq]; split_ifs <;> rfl

theorem submitAnswerFinish_loading (s : HomeState) (r : AgentCallResult) :
    (submitAnswerFinish s r).loading = false := by
  rw [submitAnswerFinish_eq]; split_ifs <;> rfl

theorem nextQuestionFinish_loading (s : HomeState) (r : AgentCallResult) :
    (nextQuestionFinish s r).loading = false := by
  rw [nextQuestionFinish_eq]; split_ifs <;> rfl

theorem reachable_loading_iff_pending (ms : MState) (h : Reachable ms) :
    ms.ui.loading = true ↔ ms.pending ≠ Pending.idle := by
  induction h with
  | init => simp [initMState, initState]
  | tail hr hstep ih =>
    rename_i ms e ms'
    cases e <;> simp only [step] at hstep
    case pickCategory c =>
      split at hstep
      · cases hstep; simpa using ih
      · cases hstep
    case pickDifficulty d =>
      split at hstep
      · cases hstep; simpa using ih
      · cases hstep
    case clickStart sid =>
      split at hstep
      · cases hstep; simp
      · cases hstep
    case pickAnswer o =>
      split at hstep
      · cases hstep; simpa using ih
      · cases hstep
    case clickSubmit =>
      split at hstep
      · cases hstep; simp
      · cases hstep
    case clickNext =>
      split at hstep
      · cases hstep; simp
      · cases hstep
    case clickPlayAgain =>
      split at hstep
      · cases hstep; simpa [playAgain] using ih
      · cases hstep
    case complete r =>
      cases hp : ms.pending <;> rw [hp] at hstep
      · cases hstep
      · cases hstep
        simp [startGameFinish_loading]
      · cases hstep
        simp [submitAnswerFinish_loading]
      · cases hstep
        simp [nextQuestionFinish_loading]


/-! ### Claims -/

/-- C1, counterexample: a successful agent response declaring game state
"game_over" leaves `startGame`'s view state at setup, so a successful
response can leave the view state at setup. -/
theorem C1_counterexample :
    callOk (okResult "game_over" none none
      { correct := 0, total := 0, percentage := 0 }) = true ∧
    (startGame initState "sid"
      (okResult "game_over" none none
        { correct := 0, total := 0, percentage := 0 })).1.gameState
      = GameState.setup := by
  exact ⟨rfl, rfl⟩

/-- C1 (amended): for every successful agent response whose declared game
state is "question" or "feedback", `startGame` sets the view state to the
declared state; a successful response with any other declared game state
leaves the view state unchanged (hence possibly setup). -/
theorem C1_startGame_viewState (s : HomeState) (sid : String)
    (r : AgentCallResult) (h : callOk r = true) :
    (r.response.result.game_state = "question" →
      (startGame s sid r).1.gameState = GameState.question) ∧
    (r.response.result.game_state = "feedback" →
      (startGame s sid r).1.gameState = GameState.feedback) ∧
    (r.response.result.game_state ≠ "question" →
      r.response.result.game_state ≠ "feedback" →
      (startGame s sid r).1.gameState = s.gameState) := by
  unfold startGame
  simp only [startGameFinish_eq, h, if_true]
  refine ⟨fun h1 => by simp [h1], fun h1 => ?_, fun h1 h2 => by simp [h1, h2]⟩
  rw [if_neg (by rw [h1]; decide), if_pos h1]

/-- C1 witness: the amended theorem applied at the initial state and a
concrete successful first-question response. -/
theorem C1_witness :
    callOk questionResult = true ∧
    (startGame initState "sid" questionResult).1.gameState
      = GameState.question :=
  ⟨rfl, (C1_startGame_viewState initState "sid" questionResult rfl).1 rfl⟩


/-- C2, counterexample: along the concrete event trace start → pick
answer → submit → next-question-fails, the state just after submission
is on the feedback view with "A) Mars" still selected, and after the
failed next-question attempt it is still on the feedback view with the
selection cleared — so the selection was cleared without any transition
into the question view. -/
theorem C2_counterexample :
    (c2Mid.map fun m => (m.ui.gameState, m.ui.selectedAnswer))
      = some (GameState.feedback, some "A) Mars") ∧
    (c2End.map fun m => (m.ui.gameState, m.ui.selectedAnswer))
      = some (GameState.feedback, none) := by
  exact ⟨by decide, by decide⟩

/-- C2 (amended): the selected answer is cleared on every transition into
the question view state; it is also cleared by every `nextQuestion`
attempt (even a failed one that stays on feedback) and by every
successful `startGame` response (even one entering feedback);
`submitAnswer` never changes it, so its transition into feedback
preserves the selection. -/
theorem C2_selection_clearing (s : HomeState) (sid : String)
    (r : AgentCallResult) :
    (s.gameState ≠ GameState.question →
      (startGame s sid r).1.gameState = GameState.question →
      (startGame s sid r).1.selectedAnswer = none) ∧
    (s.gameState ≠ GameState.question →
      (nextQuestion s r).1.gameState = GameState.question →
      (nextQuestion s r).1.selectedAnswer = none) ∧
    (callOk r = true → (startGame s sid r).1.selectedAnswer = none) ∧
    ((nextQuestion s r).1.selectedAnswer = none) ∧
    ((submitAnswer s r).1.selectedAnswer = s.selectedAnswer) := by
  refine ⟨?_, ?_, ?_, ?_, ?_⟩
  · intro hne hq
    simp only [startGame, startGameFinish_eq] at hq ⊢
    split_ifs at hq ⊢ <;> simp_all
  · intro hne hq
    simp only [nextQuestion, nextQuestionFinish_eq] at hq ⊢
    split_ifs at hq ⊢ <;> simp_all
  · intro h
    simp only [startGame, startGameFinish_eq]
    simp [h]
  · simp only [nextQuestion, nextQuestionFinish_eq]
    split_ifs <;> rfl
  · simp only [submitAnswer, submitAnswerFinish_eq]
    split_ifs with h <;> rfl

/-- C2 witness: the amended theorem applied at the initial state, a fresh
session and a failed call. -/
theorem C2_witness :
    (nextQuestion initState failedCall).1.selectedAnswer = none :=
  (C2_selection_clearing initState "sid" failedCall).2.2.2.1


/-- C3, counterexample: a successful response reporting score
correct = 1, total = 2, percentage = 99 is stored verbatim, yet
round(100 * 1/2) = 50, so the stored percentage violates the claimed
relation. -/
theorem C3_counterexample :
    callOk (okResult "question" none none
      { correct := 1, total := 2, percentage := 99 }) = true ∧
    ((startGame initState "sid"
        (okResult "question" none none
          { correct := 1, total := 2, percentage := 99 })).1.response.map
      fun resp => resp.result.score)
      = some { correct := 1, total := 2, percentage := 99 } ∧
    specPercentage { correct := 1, total := 2, percentage := 99 } = 50 ∧
    (99 : Int) ≠ 50 := by
  refine ⟨rfl, rfl, ?_, by decide⟩
  unfold specPercentage
  norm_num [round_eq]

/-- C3 (amended): the controller stores the score of a successful
response verbatim, without validating or recomputing it; consequently
the stored score satisfies percentage = round(100 * correct/total) within
[0, 100] exactly when the agent's reported score already does. -/
theorem C3_score_passthrough (s : HomeState) (sid : String)
    (r : AgentCallResult) (h : callOk r = true) :
    ((startGame s sid r).1.response = some r.response) ∧
    ((nextQuestion s r).1.response = some r.response) ∧
    (noSelection s = false → (submitAnswer s r).1.response = some r.response) ∧
    ((specPercentage r.response.result.score
        = r.response.result.score.percentage ∧
      0 ≤ r.response.result.score.percentage ∧
      r.response.result.score.percentage ≤ 100) →
      ∀ resp, (startGame s sid r).1.response = some resp →
        specPercentage resp.result.score = resp.result.score.percentage ∧
        0 ≤ resp.result.score.percentage ∧
        resp.result.score.percentage ≤ 100) := by
  have hs : (startGame s sid r).1.response = some r.response := by
    simp only [startGame, startGameFinish_eq]
    split_ifs <;> simp_all
  refine ⟨hs, ?_, ?_, ?_⟩
  · simp only [nextQuestion, nextQuestionFinish_eq]
    split_ifs <;> simp_all
  · intro hsel
    simp only [submitAnswer, submitAnswerFinish_eq, hsel]
    split_ifs <;> simp_all
  · intro hgood resp hresp
    rw [hs] at hresp
    cases hresp
    exact hgood

/-- C3 witness: the amended theorem applied at the initial state and a
concrete successful response whose reported score is consistent. -/
theorem C3_witness :
    (startGame initState "sid" questionResult).1.response
      = some questionResult.response :=
  (C3_score_passthrough initState "sid" questionResult rfl).1


/-- C4: on a failed agent call (transport failure or non-success status)
each of the three network operations leaves the view state unchanged,
records the human-readable error message, and dispatched exactly one
request (no retry); a failed `submitAnswer` leaves the selection intact;
and every dispatch step of the event machine clears the error message at
the start of the attempt. -/
theorem C4_failure_handling (s : HomeState) (sid : String)
    (r : AgentCallResult) (hfail : callOk r = false) :
    ((startGame s sid r).1.gameState = s.gameState ∧
      (startGame s sid r).1.error
        = some (strOr r.error "Failed to start game") ∧
      (startGame s sid r).2.length = 1) ∧
    ((nextQuestion s r).1.gameState = s.gameState ∧
      (nextQuestion s r).1.error
        = some (strOr r.error "Failed to get next question") ∧
      (nextQuestion s r).2.length = 1) ∧
    (noSelection s = false →
      (submitAnswer s r).1.gameState = s.gameState ∧
      (submitAnswer s r).1.error
        = some (strOr r.error "Failed to submit answer") ∧
      (submitAnswer s r).1.selectedAnswer = s.selectedAnswer ∧
      (submitAnswer s r).2.length = 1) ∧
    (∀ ms ms' : MState, ∀ e : Event, e.dispatches = true →
      step ms e = some ms' → ms'.ui.error = none) := by
  refine ⟨?_, ?_, ?_, ?_⟩
  · simp only [startGame, startGameFinish_eq, hfail]
    simp
  · simp only [nextQuestion, nextQuestionFinish_eq, hfail]
    simp
  · intro hsel
    simp only [submitAnswer, submitAnswerFinish_eq, hsel, hfail]
    simp
  · intro ms ms' e hde hstep
    cases e <;> simp only [Event.dispatches] at hde <;>
      try exact absurd hde (by decide)
    case clickStart sid2 =>
      simp only [step] at hstep
      split at hstep
      · cases hstep; rfl
      · cases hstep
    case clickSubmit =>
      simp only [step] at hstep
      split at hstep
      · cases hstep; rfl
      · cases hstep
    case clickNext =>
      simp only [step] at hstep
      split at hstep
      · cases hstep; rfl
      · cases hstep

/-- C4 witness: the theorem applied at the initial state and a concrete
failed call. -/
theorem C4_witness :
    (startGame initState "sid" failedCall).1.gameState = GameState.setup ∧
    (startGame initState "sid" failedCall).1.error = some "network down" :=
  ⟨((C4_failure_handling initState "sid" failedCall rfl).1).1,
    ((C4_failure_handling initState "sid" failedCall rfl).1).2.1⟩


/-- C5, counterexample: a successful response to `nextQuestion` whose
declared game state is "setup" leaves the view state at feedback — it
becomes neither question nor game_over. -/
theorem C5_counterexample :
    callOk (okResult "setup" none none
      { correct := 0, total := 1, percentage := 0 }) = true ∧
    (nextQuestion feedbackState
      (okResult "setup" none none
        { correct := 0, total := 1, percentage := 0 })).1.gameState
      = GameState.feedback ∧
    GameState.feedback ≠ GameState.question ∧
    GameState.feedback ≠ GameState.game_over := by
  refine ⟨rfl, rfl, by decide, by decide⟩

/-- C5 (amended): on a successful response `nextQuestion` sets the view
state to question when the declared game state is "question" and to
game_over when it is "game_over"; a successful response with any other
declared state leaves the view state unchanged; on a failed call the
view state is unchanged (so it remains feedback when invoked there). -/
theorem C5_nextQuestion_viewState (s : HomeState) (r : AgentCallResult) :
    (callOk r = true → r.response.result.game_state = "question" →
      (nextQuestion s r).1.gameState = GameState.question) ∧
    (callOk r = true → r.response.result.game_state = "game_over" →
      (nextQuestion s r).1.gameState = GameState.game_over) ∧
    (callOk r = true → r.response.result.game_state ≠ "question" →
      r.response.result.game_state ≠ "game_over" →
      (nextQuestion s r).1.gameState = s.gameState) ∧
    (callOk r = false → (nextQuestion s r).1.gameState = s.gameState) := by
  refine ⟨?_, ?_, ?_, ?_⟩
  · intro h h1
    simp only [nextQuestion, nextQuestionFinish_eq, h]
    simp [h1]
  · intro h h1
    simp only [nextQuestion, nextQuestionFinish_eq, h]
    simp only [if_true]
    rw [if_neg (by rw [h1]; decide), if_pos h1]
  · intro h h1 h2
    simp only [nextQuestion, nextQuestionFinish_eq, h]
    simp [h1, h2]
  · intro h
    simp only [nextQuestion, nextQuestionFinish_eq, h]
    simp

/-- C5 witness: the amended theorem applied at the feedback state, a
successful game-over response and a failed call. -/
theorem C5_witness :
    (nextQuestion feedbackState
      (okResult "game_over" none none
        { correct := 0, total := 1, percentage := 0 })).1.gameState
      = GameState.game_over ∧
    (nextQuestion feedbackState failedCall).1.gameState
      = GameState.feedback :=
  ⟨(C5_nextQuestion_viewState feedbackState
      (okResult "game_over" none none
        { correct := 0, total := 1, percentage := 0 })).2.1 rfl rfl,
    (C5_nextQuestion_viewState feedbackState failedCall).2.2.2 rfl⟩

/-- C6, counterexample: `playAgain` from a game-over state with category
History returns to setup but keeps the category History, which differs
from the initial default Science — so not all session state is reset to
initial defaults. -/
theorem C6_counterexample :
    (playAgain gameOverState).1.gameState = GameState.setup ∧
    (playAgain gameOverState).1.category = Category.History ∧
    initState.category = Category.Science ∧
    Category.History ≠ Category.Science := by
  refine ⟨rfl, rfl, rfl, by decide⟩

/-- C6 (amended): `playAgain` returns the view state to setup and clears
the stored response (hence score, question and feedback), the selected
answer and the session identifier, dispatching no request; the category,
difficulty, loading flag and error message are left unchanged rather
than reset to defaults. -/
theorem C6_playAgain_reset (s : HomeState) :
    (playAgain s).1.gameState = GameState.setup ∧
    (playAgain s).1.response = none ∧
    (playAgain s).1.selectedAnswer = none ∧
    (playAgain s).1.sessionId = "" ∧
    (playAgain s).1.category = s.category ∧
    (playAgain s).1.difficulty = s.difficulty ∧
    (playAgain s).1.loading = s.loading ∧
    (playAgain s).1.error = s.error ∧
    (playAgain s).2 = [] := by
  refine ⟨rfl, rfl, rfl, rfl, rfl, rfl, rfl, rfl, rfl⟩

/-- C7: with no selected answer, `submitAnswer` is a no-op — the state is
returned unchanged and no request is dispatched. -/
theorem C7_submit_noSelection_noop (s : HomeState) (r : AgentCallResult)
    (h : s.selectedAnswer = none) :
    submitAnswer s r = (s, []) := by
  unfold submitAnswer
  rw [if_pos]
  unfold noSelection
  rw [h]

/-- C7 witness: the theorem applied at the initial state, where nothing
is selected. -/
theorem C7_witness :
    initState.selectedAnswer = none ∧
    submitAnswer initState failedCall = (initState, []) :=
  ⟨rfl, C7_submit_noSelection_noop initState failedCall rfl⟩


/-- C8: the correct answer displayed on the feedback screen is some `o`
exactly when `o` starts with the question's correct-answer marker and
occurs in the option list with no earlier option having that marker as a
prefix; it is none exactly when no option starts with the marker. -/
theorem C8_displayed_correct_answer (q : Question) :
    (∀ o, displayedCorrectAnswer q = some o ↔
      jsStartsWith o q.correct_answer = true ∧
      ∃ l1 l2, q.options = l1 ++ o :: l2 ∧
        ∀ o' ∈ l1, jsStartsWith o' q.correct_answer = false) ∧
    (displayedCorrectAnswer q = none ↔
      ∀ o ∈ q.options, jsStartsWith o q.correct_answer = false) := by
  constructor
  · intro o
    unfold displayedCorrectAnswer
    rw [List.find?_eq_some]
    simp
  · unfold displayedCorrectAnswer
    rw [List.find?_eq_none]
    simp

/-- C8 witness: the characterization applied at the sample question,
whose second option is the unique one starting with the marker "B". -/
theorem C8_witness :
    displayedCorrectAnswer sampleQuestion = some "B) Venus" :=
  ((C8_displayed_correct_answer sampleQuestion).1 "B) Venus").mpr
    ⟨by decide, ["A) Mars"], [], rfl, by decide⟩

/-- C9: in every reachable machine state the loading flag is set exactly
while a request is outstanding (so, the `Pending` marker holding at most
one request, there is at most one in flight); while the flag is set, any
possible event either completes the outstanding request or leaves the
in-flight marker unchanged (no new dispatch); and the flag is cleared
only by completion of the awaited request. -/
theorem C9_single_outstanding_request (ms : MState) (h : Reachable ms) :
    (ms.ui.loading = true ↔ ms.pending ≠ Pending.idle) ∧
    (∀ e ms', step ms e = some ms' → ms.ui.loading = true →
      (∃ r, e = Event.complete r ∧ ms'.pending = Pending.idle) ∨
        ms'.pending = ms.pending) ∧
    (∀ e ms', step ms e = some ms' → ms.ui.loading = true →
      ms'.ui.loading = false → ∃ r, e = Event.complete r) := by
  refine ⟨reachable_loading_iff_pending ms h, ?_, ?_⟩
  · intro e ms' hstep hload
    cases e <;> simp only [step] at hstep
    case pickCategory c =>
      split at hstep
      · cases hstep; right; rfl
      · cases hstep
    case pickDifficulty d =>
      split at hstep
      · cases hstep; right; rfl
      · cases hstep
    case clickStart sid =>
      split at hstep
      · rename_i hc; rw [hload] at hc; cases hstep; exact absurd hc.2 (by decide)
      · cases hstep
    case pickAnswer o =>
      split at hstep
      · rename_i hc; rw [hload] at hc
        exact absurd hc.2.2.1 (by decide)
      · cases hstep
    case clickSubmit =>
      split at hstep
      · rename_i hc; rw [hload] at hc
        exact absurd hc.2.2.1 (by decide)
      · cases hstep
    case clickNext =>
      split at hstep
      · rename_i hc; rw [hload] at hc
        exact absurd hc.2.2 (by decide)
      · cases hstep
    case clickPlayAgain =>
      split at hstep
      · cases hstep; right; rfl
      · cases hstep
    case complete r =>
      cases hp : ms.pending <;> rw [hp] at hstep
      · cases hstep
      · cases hstep; exact Or.inl ⟨r, rfl, rfl⟩
      · cases hstep; exact Or.inl ⟨r, rfl, rfl⟩
      · cases hstep; exact Or.inl ⟨r, rfl, rfl⟩
  · intro e ms' hstep hload hload'
    cases e <;> simp only [step] at hstep
    case pickCategory c =>
      split at hstep
      · cases hstep; rw [hload] at hload'; cases hload'
      · cases hstep
    case pickDifficulty d =>
      split at hstep
      · cases hstep; rw [hload] at hload'; cases hload'
      · cases hstep
    case clickStart sid =>
      split at hstep
      · rename_i hc; rw [hload] at hc; exact absurd hc.2 (by decide)
      · cases hstep
    case pickAnswer o =>
      split at hstep
      · rename_i hc; rw [hload] at hc
        exact absurd hc.2.2.1 (by decide)
      · cases hstep
    case clickSubmit =>
      split at hstep
      · rename_i hc; rw [hload] at hc
        exact absurd hc.2.2.1 (by decide)
      · cases hstep
    case clickNext =>
      split at hstep
      · rename_i hc; rw [hload] at hc
        exact absurd hc.2.2 (by decide)
      · cases hstep
    case clickPlayAgain =>
      split at hstep
      · cases hstep
        simp only [playAgain] at hload'
        rw [hload] at hload'
        cases hload'
      · cases hstep
    case complete r =>
      cases hp : ms.pending <;> rw [hp] at hstep
      · cases hstep
      · cases hstep; exact ⟨r, rfl⟩
      · cases hstep; exact ⟨r, rfl⟩
      · cases hstep; exact ⟨r, rfl⟩

/-- C9 witness: the theorem applied at the initial machine state. -/
theorem C9_witness :
    initMState.ui.loading = true ↔ initMState.pending ≠ Pending.idle :=
  (C9_single_outstanding_request initMState Reachable.init).1

/-- C10: a successful response whose declared game state is recognized by
neither branch of the dispatching operation (`startGame` recognizes only
"question" and "feedback"; `nextQuestion` only "question" and
"game_over") still replaces the stored response wholesale while the view
state is left unchanged. -/
theorem C10_unrecognized_state (s : HomeState) (sid : String)
    (r : AgentCallResult) (h : callOk r = true) :
    (r.response.result.game_state ≠ "question" →
      r.response.result.game_state ≠ "feedback" →
      (startGame s sid r).1.response = some r.response ∧
      (startGame s sid r).1.gameState = s.gameState) ∧
    (r.response.result.game_state ≠ "question" →
      r.response.result.game_state ≠ "game_over" →
      (nextQuestion s r).1.response = some r.response ∧
      (nextQuestion s r).1.gameState = s.gameState) := by
  constructor
  · intro h1 h2
    simp only [startGame, startGameFinish_eq, h]
    simp [h1, h2]
  · intro h1 h2
    simp only [nextQuestion, nextQuestionFinish_eq, h]
    simp [h1, h2]

/-- C10 witness: the theorem applied at the initial state and a
successful response declaring the unrecognized game state "bogus". -/
theorem C10_witness :
    (startGame initState "sid"
      (okResult "bogus" none none
        { correct := 0, total := 0, percentage := 0 })).1.response
      = some (okResult "bogus" none none
        { correct := 0, total := 0, percentage := 0 }).response ∧
    (startGame initState "sid"
      (okResult "bogus" none none
        { correct := 0, total := 0, percentage := 0 })).1.gameState
      = GameState.setup := by
  have h := (C10_unrecognized_state initState "sid"
    (okResult "bogus" none none
      { correct := 0, total := 0, percentage := 0 }) rfl).1
    (by decide) (by decide)
  exact ⟨h.1, h.2⟩

end Trivia
